import Mathlib

/-!
Verification of the weather/geocoding pipeline in `src/services/location.py`.

The script resolves a (city, country) pair to coordinates through a geocoding
HTTP collaborator, builds an Open-Meteo request parameter set for a fixed
ordered enumeration of hourly variables, and extracts series from the
response.  We embed the pure logic shallowly:

* Python machine floats that only ever hold decimal values parsed from
  collaborator strings are modelled as exact rationals (`ℚ`); `np.nan`, the
  unresolved-coordinate placeholder, is modelled as `none` in `Option ℚ`.
* Stateful mutation of the `LocationData` model object is modelled by
  explicit state passing: a Python function that mutates `loc` and returns
  `None` becomes a Lean function from the old record (plus the collaborator's
  response data) to the new record.
* Python exceptions become `Except` values.  The spec's error taxonomy is
  used for the constructor names: the `IndexError` raised by
  `dct["results"][0]` on an empty candidate list is `ResolutionError`, the
  `ValueError` raised by `float(...)` on a malformed numeric string is
  `ParseError`.
* HTTP transport, caching and retries are collaborator concerns; functions
  take the collaborator's decoded response as an argument.
-/

namespace LocationService

/-- `OmVariableEnum` from the source: the closed, ordered enumeration of
requested hourly weather variable kinds, in declaration order. -/
inductive OmVariableEnum where
  | TempAir
  | RelHum
  | DePoint
  | Pressure
  | WindSpeed
  | TempSoil
  | Precipitation
  | Radiation
  deriving DecidableEq, Fintype, Repr

namespace OmVariableEnum

/-- The string value of each member (`temperature_2m`, ...). -/
def value : OmVariableEnum → String
  | .TempAir => "temperature_2m"
  | .RelHum => "relative_humidity_2m"
  | .DePoint => "dew_point_2m"
  | .Pressure => "surface_pressure"
  | .WindSpeed => "wind_speed_10m"
  | .TempSoil => "soil_temperature_54cm"
  | .Precipitation => "precipitation"
  | .Radiation => "direct_radiation"

end OmVariableEnum

/-- `list(OmVariableEnum)`: iteration over a Python `Enum` yields the members
in declaration order. -/
def omMembers : List OmVariableEnum :=
  [.TempAir, .RelHum, .DePoint, .Pressure, .WindSpeed, .TempSoil,
   .Precipitation, .Radiation]

namespace OmVariableEnum

/-- `SortableEnum.idx`: `order = list(self.__class__); return order.index(self)`. -/
def idx (v : OmVariableEnum) : Nat :=
  omMembers.indexOf v

/-- `SortableEnum.__lt__`.  The `other` argument is `Option`-typed because the
Python code explicitly handles `other is None` (returning `False`); arguments
of unrelated classes (the `NotImplemented` branch) are outside the model. -/
def ltB (v : OmVariableEnum) (other : Option OmVariableEnum) : Bool :=
  match other with
  | none => false
  | some w => v.idx < w.idx

/-- `SortableEnum.__le__`: `False` for `None`, else `self < other or self == other`. -/
def leB (v : OmVariableEnum) (other : Option OmVariableEnum) : Bool :=
  match other with
  | none => false
  | some w => v.ltB (some w) || v == w

/-- `SortableEnum.__gt__`: `True` for `None`, else `not self <= other`. -/
def gtB (v : OmVariableEnum) (other : Option OmVariableEnum) : Bool :=
  match other with
  | none => true
  | some w => !(v.leB (some w))

/-- `SortableEnum.__ge__`: `True` for `None`, else `not self < other`. -/
def geB (v : OmVariableEnum) (other : Option OmVariableEnum) : Bool :=
  match other with
  | none => true
  | some w => !(v.ltB (some w))

/-- `OmVariableEnum.get_idx`: its body is a bare `return`, so it returns
Python `None` (modelled as `none`) despite the `-> int` annotation. -/
def get_idx (_v : OmVariableEnum) (_var : OmVariableEnum) : Option Int :=
  none

end OmVariableEnum

/-- C9: The comparison operators inherited from `SortableEnum` give a strict
total order by declaration position: `a < b` holds exactly when `a`'s
declaration index is below `b`'s (hence irreflexive, transitive — encoded as
a boolean equation — and total), and every member compares strictly greater
than `None`: `x < None` and `x <= None` are `False`, `x > None` and
`x >= None` are `True`. -/
theorem sortableEnum_strict_total_order_by_position :
    (∀ a b : OmVariableEnum, a.ltB (some b) = true ↔ a.idx < b.idx) ∧
    (∀ a : OmVariableEnum, a.ltB (some a) = false) ∧
    (∀ a b c : OmVariableEnum,
      (a.ltB (some b) && b.ltB (some c) && !(a.ltB (some c))) = false) ∧
    (∀ a b : OmVariableEnum,
      a = b ∨ a.ltB (some b) = true ∨ b.ltB (some a) = true) ∧
    (∀ x : OmVariableEnum,
      x.ltB none = false ∧ x.leB none = false ∧
      x.gtB none = true ∧ x.geB none = true) := by
  refine ⟨by decide, by decide, by decide, by decide, by decide⟩

/-- C10: `OmVariableEnum.get_idx` returns `None` for every receiver and
argument — it never yields a position index; the inherited `idx` method is
what realises position lookup, mapping the members, in declaration order, to
`0, 1, ..., 7`. -/
theorem get_idx_always_none :
    (∀ v var : OmVariableEnum, v.get_idx var = none) ∧
    omMembers.map OmVariableEnum.idx = [0, 1, 2, 3, 4, 5, 6, 7] := by
  exact ⟨fun _ _ => rfl, by decide⟩

/-- The parameter dictionary built by `prepare_om_params`; the dictionary's
fixed keys become fields. -/
structure OmParams where
  latitude : ℚ
  longitude : ℚ
  hourly : List String
  forecast_days : Nat
  tilt : Int
  azimuth : Int
  deriving DecidableEq, Repr

/-- `prepare_om_params(lat, long)` from the source: latitude and longitude
from the arguments, `hourly` the list comprehension
`[entry.value for entry in OmVariableEnum]`, and the fixed constants. -/
def prepare_om_params (lat long : ℚ) : OmParams :=
  { latitude := lat
    longitude := long
    hourly := omMembers.map OmVariableEnum.value
    forecast_days := 2
    tilt := 45
    azimuth := -45 }

/-- C2: for every `(lat, lon)`, the built parameter set carries `latitude = lat`,
`longitude = lon`, and an `hourly` list that is exactly the declared
`OmVariableEnum` identifiers in declaration order, each occurring exactly
once.  The builder is a pure function of its arguments (it is a plain `def`
with no effects, mirroring the Python function, which only constructs a dict
from its arguments and constants). -/
theorem prepare_om_params_spec (lat long : ℚ) :
    (prepare_om_params lat long).latitude = lat ∧
    (prepare_om_params lat long).longitude = long ∧
    (prepare_om_params lat long).hourly = omMembers.map OmVariableEnum.value ∧
    (∀ k : OmVariableEnum, ((prepare_om_params lat long).hourly.count k.value) = 1) := by
  refine ⟨rfl, rfl, rfl, ?_⟩
  intro k
  cases k <;> rfl

/-- Modelled from the spec: `WeatherSeries` — the response's per-variable
hourly series, self-describing its variable identifier and (for multi-depth
variables) an altitude/depth tag, carrying its numeric samples.  The
response-side extraction (spec §4.3) is not implemented in `src`: the script
indexes the SDK response positionally (`hourly.Variables(idx)`). -/
structure WeatherSeries where
  varId : OmVariableEnum
  altTag : Option ℚ
  values : List ℚ
  deriving DecidableEq, Repr

/-- Modelled from the spec: the extractor's error taxonomy entry. -/
inductive ExtractError where
  | VariableNotFoundError
  deriving DecidableEq, Repr

/-- Modelled from the spec: the hourly block's indexed collection of
per-variable series, in response order. -/
structure HourlyBlock where
  series : List WeatherSeries
  deriving DecidableEq, Repr

/-- Modelled from the spec: the match predicate of §4.3 — variable identifier
equals `kind` AND (if `altitude` is supplied) the altitude/depth tag equals
`altitude`. -/
def seriesMatches (kind : OmVariableEnum) (altitude : Option ℚ)
    (s : WeatherSeries) : Bool :=
  s.varId == kind &&
    (match altitude with
     | none => true
     | some a => s.altTag == some a)

/-- Modelled from the spec: `extract(response, kind, altitude?)` — linear scan
over the indexed collection, first match wins, `VariableNotFoundError` when no
series matches. -/
def extract (resp : HourlyBlock) (kind : OmVariableEnum)
    (altitude : Option ℚ) : Except ExtractError WeatherSeries :=
  match resp.series.find? (seriesMatches kind altitude) with
  | some s => .ok s
  | none => .error .VariableNotFoundError

/-- `find?` finds the element at the first position satisfying the predicate. -/
theorem find?_of_first_position {α : Type} (l : List α) (p : α → Bool) :
    ∀ (i : Nat) (hi : i < l.length),
      (∀ j (hj : j < i), p (l.get ⟨j, Nat.lt_trans hj hi⟩) = false) →
      p (l.get ⟨i, hi⟩) = true →
      l.find? p = some (l.get ⟨i, hi⟩) := by
  induction l with
  | nil => intro i hi _ _; exact absurd hi (Nat.not_lt_zero i)
  | cons a t ih =>
    intro i hi hbefore hat
    cases i with
    | zero =>
      simp only [List.get] at hat
      simp [List.find?_cons, hat]
    | succ k =>
      have hpa : p a = false := hbefore 0 (Nat.zero_lt_succ k)
      have hk : k < t.length := Nat.lt_of_succ_lt_succ hi
      have hbefore' : ∀ j (hj : j < k), p (t.get ⟨j, Nat.lt_trans hj hk⟩) = false := by
        intro j hj
        exact hbefore (j + 1) (Nat.succ_lt_succ hj)
      have hat' : p (t.get ⟨k, hk⟩) = true := hat
      have := ih k hk hbefore' hat'
      simp [List.find?_cons, hpa, this]

/-- A successful `find?` is the first matching position: the result sits at
some index, matches, and everything before it fails the predicate. -/
theorem find?_first_position_of_some {α : Type} (l : List α) (p : α → Bool) :
    ∀ (s : α), l.find? p = some s →
      ∃ i, ∃ hi : i < l.length, s = l.get ⟨i, hi⟩ ∧ p s = true ∧
        ∀ j (hj : j < i), p (l.get ⟨j, Nat.lt_trans hj hi⟩) = false := by
  induction l with
  | nil => intro s h; cases h
  | cons a t ih =>
    intro s h
    cases hpa : p a with
    | true =>
      rw [List.find?_cons, hpa] at h
      cases h
      exact ⟨0, Nat.zero_lt_succ t.length, rfl, hpa,
        fun j hj => absurd hj (Nat.not_lt_zero j)⟩
    | false =>
      rw [List.find?_cons, hpa] at h
      obtain ⟨i, hi, hs, hps, hbefore⟩ := ih s h
      refine ⟨i + 1, Nat.succ_lt_succ hi, hs, hps, ?_⟩
      intro j hj
      cases j with
      | zero => exact hpa
      | succ m => exact hbefore m (Nat.lt_of_succ_lt_succ hj)

/-- Every member sits at its `idx` position in `omMembers`. -/
theorem omMembers_get_val_eq :
    ∀ (k : OmVariableEnum) (j : Fin omMembers.length),
      (j : Nat) = k.idx → omMembers.get j = k := by
  decide

/-- Before a member's `idx` position, `omMembers` holds other members. -/
theorem omMembers_get_val_lt :
    ∀ (k : OmVariableEnum) (j : Fin omMembers.length),
      (j : Nat) < k.idx → omMembers.get j ≠ k := by
  decide

/-- C1: `extract` selects the first series, in response order, whose variable
identifier equals the requested kind and, when an altitude is supplied, whose
altitude/depth tag equals it; and whenever the response lists its series in
the same order as the request (series `i` carries the `i`-th declared kind,
as the request built by `prepare_om_params` induces), this first-match scan
returns exactly the series at the kind's declaration-order position, the
index `main` uses via `hourly.Variables(kind.idx())`. -/
theorem extract_first_match_agrees_with_positional :
    (∀ (resp : HourlyBlock) (kind : OmVariableEnum) (altitude : Option ℚ)
        (s : WeatherSeries), extract resp kind altitude = .ok s →
      ∃ i, ∃ hi : i < resp.series.length, s = resp.series.get ⟨i, hi⟩ ∧
        seriesMatches kind altitude s = true ∧
        ∀ j (hj : j < i),
          seriesMatches kind altitude
            (resp.series.get ⟨j, Nat.lt_trans hj hi⟩) = false) ∧
    (∀ (resp : HourlyBlock) (kind : OmVariableEnum) (altitude : Option ℚ)
        (hlen : resp.series.length = omMembers.length)
        (hidx : kind.idx < resp.series.length),
      (∀ i (hi : i < resp.series.length),
        (resp.series.get ⟨i, hi⟩).varId = omMembers.get ⟨i, hlen ▸ hi⟩) →
      (∀ a : ℚ, altitude = some a →
        (resp.series.get ⟨kind.idx, hidx⟩).altTag = some a) →
      extract resp kind altitude = .ok (resp.series.get ⟨kind.idx, hidx⟩)) := by
  constructor
  · intro resp kind altitude s h
    unfold extract at h
    cases hfind : resp.series.find? (seriesMatches kind altitude) with
    | some t =>
      rw [hfind] at h
      have h' : (Except.ok t : Except ExtractError WeatherSeries) = .ok s := h
      cases h'
      exact find?_first_position_of_some _ _ _ hfind
    | none =>
      rw [hfind] at h
      exact Except.noConfusion h
  · intro resp kind altitude hlen hidx horder halt
    have h8 : kind.idx < omMembers.length := hlen ▸ hidx
    have hvar : (resp.series.get ⟨kind.idx, hidx⟩).varId = kind := by
      rw [horder kind.idx hidx]
      exact omMembers_get_val_eq kind ⟨kind.idx, h8⟩ rfl
    have hat : seriesMatches kind altitude (resp.series.get ⟨kind.idx, hidx⟩) = true := by
      unfold seriesMatches
      rw [hvar]
      cases altitude with
      | none => simp
      | some a => rw [halt a rfl]; simp
    have hbefore : ∀ j (hj : j < kind.idx),
        seriesMatches kind altitude
          (resp.series.get ⟨j, Nat.lt_trans hj hidx⟩) = false := by
      intro j hj
      have hjlen : j < resp.series.length := Nat.lt_trans hj hidx
      have hne : (resp.series.get ⟨j, hjlen⟩).varId ≠ kind := by
        rw [horder j hjlen]
        exact omMembers_get_val_lt kind ⟨j, hlen ▸ hjlen⟩ hj
      have hbeq : ((resp.series.get ⟨j, hjlen⟩).varId == kind) = false :=
        beq_eq_false_iff_ne.mpr hne
      unfold seriesMatches
      rw [hbeq, Bool.false_and]
    unfold extract
    rw [find?_of_first_position resp.series _ kind.idx hidx hbefore hat]

/-- A response whose series sit in request order: series `i` carries the
`i`-th declared kind, with no altitude tag and an empty sample list. -/
def sampleHourly : HourlyBlock :=
  ⟨omMembers.map (fun k => ⟨k, none, []⟩)⟩

/-- Witness for C1: on a response in request order, extracting `TempAir`
returns the series at `TempAir.idx`. -/
theorem extract_first_match_agrees_with_positional_witness :
    extract sampleHourly .TempAir none =
      .ok (sampleHourly.series.get ⟨OmVariableEnum.TempAir.idx, by decide⟩) :=
  extract_first_match_agrees_with_positional.2 sampleHourly .TempAir none
    (by decide) (by decide) (by decide) (fun a h => nomatch h)

/-- C3: `extract` fails with `VariableNotFoundError` exactly when no series in
the response matches the requested kind (and altitude, when supplied); in
particular, querying `TempAir` against a response holding only a
precipitation series fails with `VariableNotFoundError`. -/
theorem extract_error_iff_no_match :
    (∀ (resp : HourlyBlock) (kind : OmVariableEnum) (altitude : Option ℚ),
      extract resp kind altitude = .error .VariableNotFoundError ↔
        ∀ s ∈ resp.series, seriesMatches kind altitude s = false) ∧
    extract ⟨[⟨.Precipitation, none, []⟩]⟩ .TempAir none =
      .error .VariableNotFoundError := by
  constructor
  · intro resp kind altitude
    unfold extract
    cases hfind : resp.series.find? (seriesMatches kind altitude) with
    | some t =>
      constructor
      · intro h
        exact Except.noConfusion h
      · intro hall
        have hp : seriesMatches kind altitude t = true := List.find?_some hfind
        have hmem : t ∈ resp.series := List.mem_of_find?_eq_some hfind
        rw [hall t hmem] at hp
        exact Bool.noConfusion hp
    | none =>
      constructor
      · intro _ s hs
        have := List.find?_eq_none.mp hfind s hs
        simpa using this
      · intro _
        rfl
  · rfl

/-- `LocationData` (pydantic model): name and country, and coordinates that
stay `np.nan` — modelled as `none` — until the resolver fills them. -/
structure LocationData where
  name : String
  country : String
  lat : Option ℚ
  lon : Option ℚ
  deriving DecidableEq, Repr

/-- `LocationData.loc_str(delim=", ")`: join the truthy (non-empty) fields
with the delimiter. -/
def LocationData.loc_str (loc : LocationData) (delim : String) : String :=
  String.intercalate delim
    ((if loc.name ≠ "" then [loc.name] else []) ++
     (if loc.country ≠ "" then [loc.country] else []))

/-- One candidate of the geocoding collaborator's ranked `results` list;
latitude and longitude arrive as numeric strings for `float(...)`. -/
structure GeoCandidate where
  latitude : String
  longitude : String
  deriving DecidableEq, Repr

/-- The resolver's error taxonomy (spec §7): `ResolutionError` models the
`IndexError` raised by `dct["results"][0]` on an empty candidate list,
`ParseError` the `ValueError` raised by `float(...)` on a malformed numeric
string. -/
inductive GeoError where
  | ResolutionError
  | ParseError
  deriving DecidableEq, Repr

/-- The value of each digit string, most significant first. -/
def digitsVal (cs : List Char) : Nat :=
  cs.foldl (fun n c => 10 * n + (c.toNat - 48)) 0

/-- Python `float(s)` on the plain decimal strings the geocoding collaborator
sends: an optional sign, digits, at most one decimal point, at least one
digit.  (Exponents, `inf`/`nan` and underscore separators are outside the
modelled fragment; the collaborator's numeric fields are plain decimals.)
`none` models the `ValueError` raised on an unparseable string. -/
def pyFloat (s : String) : Option ℚ :=
  let cs := s.toList
  let body : List Char :=
    match cs with
    | '-' :: rest => rest
    | '+' :: rest => rest
    | _ => cs
  let signed : ℚ → ℚ :=
    match cs with
    | '-' :: _ => fun q => -q
    | _ => fun q => q
  match body.splitOn '.' with
  | [ip] =>
    if ip ≠ [] ∧ ip.all Char.isDigit then some (signed (digitsVal ip : ℚ))
    else none
  | [ip, fp] =>
    if (ip ≠ [] ∨ fp ≠ []) ∧ (ip ++ fp).all Char.isDigit then
      some (signed ((digitsVal ip : ℚ) + (digitsVal fp : ℚ) / (10 : ℚ) ^ fp.length))
    else none
  | _ => none

/-- Python `loc.name.split(" ")`: split on every single space, keeping empty
pieces. -/
def splitSpaces (s : String) : List String :=
  (s.toList.splitOn ' ').map String.mk

/-- The query parameters `_location_query_om` sends to the geocoding
collaborator: fixed `count`, `language` and `format`, the `name` field built
as `"+".join(loc.name.split(" "))`, and the optional `apikey`. -/
structure OmGeoParams where
  count : Nat
  language : String
  format : String
  name : String
  apikey : Option String
  deriving DecidableEq, Repr

/-- The parameter dict of `_location_query_om` (source lines 73–84). -/
def location_query_om_params (loc : LocationData) (apikey : Option String) :
    OmGeoParams :=
  { count := 10
    language := "en"
    format := "json"
    name := String.intercalate "+" (splitSpaces loc.name)
    apikey := apikey }

/-- `_location_query_om(loc, apikey)`: query the Open-Meteo geocoding
collaborator and fill `loc`'s coordinates from the first candidate.  The
collaborator's decoded `results` list is passed in explicitly; the Python
in-place mutation becomes returning the updated record.  (On a `ValueError`
from the longitude parse the Python object keeps a partially assigned `lat`;
the aborted pipeline never observes it, and the model returns only the
error.) -/
def location_query_om (loc : LocationData) (_apikey : Option String)
    (results : List GeoCandidate) : Except GeoError LocationData :=
  match results with
  | [] => .error .ResolutionError
  | item :: _ =>
    match pyFloat item.latitude, pyFloat item.longitude with
    | some la, some lo =>
      .ok { name := loc.name, country := loc.country, lat := some la, lon := some lo }
    | _, _ => .error .ParseError

/-- `get_coordinates(city, country)`: create the location carrying name and
country only, then resolve it through `_location_query_om` with the default
`apikey=None` (the OSM variant's call is commented out in the source). -/
def get_coordinates (city country : String) (results : List GeoCandidate) :
    Except GeoError LocationData :=
  location_query_om
    { name := city, country := country, lat := none, lon := none } none results

/-- C4: resolution fails with `ResolutionError` when the geocoding
collaborator returns an empty candidate list, and with `ParseError` when the
first candidate's latitude or longitude field does not parse as a float. -/
theorem location_query_om_error_conditions :
    (∀ (loc : LocationData) (apikey : Option String),
      location_query_om loc apikey [] = .error .ResolutionError) ∧
    (∀ (loc : LocationData) (apikey : Option String) (item : GeoCandidate)
        (rest : List GeoCandidate),
      pyFloat item.latitude = none ∨ pyFloat item.longitude = none →
      location_query_om loc apikey (item :: rest) = .error .ParseError) := by
  constructor
  · intro loc apikey
    rfl
  · intro loc apikey item rest h
    have hstep : location_query_om loc apikey (item :: rest) =
        match pyFloat item.latitude, pyFloat item.longitude with
        | some la, some lo =>
          .ok { name := loc.name, country := loc.country,
                lat := some la, lon := some lo }
        | _, _ => .error .ParseError := rfl
    rw [hstep]
    cases hla : pyFloat item.latitude with
    | none =>
      cases hlo : pyFloat item.longitude with
      | none => rfl
      | some lo => rfl
    | some la =>
      cases hlo : pyFloat item.longitude with
      | none => rfl
      | some lo =>
        rcases h with h | h
        · rw [hla] at h; exact Option.noConfusion h
        · rw [hlo] at h; exact Option.noConfusion h

/-- Witness for C4: an empty candidate list gives `ResolutionError`; a first
candidate with unparseable latitude gives `ParseError`. -/
theorem location_query_om_error_conditions_witness :
    (pyFloat "abc" = none ∨ pyFloat "0" = none) ∧
    location_query_om ⟨"New York", "USA", none, none⟩ none [] =
      .error .ResolutionError ∧
    location_query_om ⟨"New York", "USA", none, none⟩ none [⟨"abc", "0"⟩] =
      .error .ParseError :=
  ⟨Or.inl (by decide),
   location_query_om_error_conditions.1 ⟨"New York", "USA", none, none⟩ none,
   location_query_om_error_conditions.2 ⟨"New York", "USA", none, none⟩ none
     ⟨"abc", "0"⟩ [] (Or.inl (by decide))⟩

/-- Modelled from the spec: `EmptySeriesError`, the aggregation error of §4.4. -/
inductive AggError where
  | EmptySeriesError
  deriving DecidableEq, Repr

/-- Modelled from the spec: `mean(series)` of §4.4 — the standard arithmetic
mean over the numeric sequence; no aggregation routine exists in `src`.  The
samples are exact rationals, so the spec's float64 examples (which are exact
in binary floating point) are reproduced exactly. -/
def mean (series : List ℚ) : Except AggError ℚ :=
  if series.length = 0 then .error .EmptySeriesError
  else .ok (series.sum / series.length)

/-- C5: `mean` returns the standard arithmetic mean — `mean [4, 6] = 5` — and
fails with `EmptySeriesError` exactly when the sequence has zero length. -/
theorem mean_spec :
    mean [4, 6] = .ok 5 ∧
    (∀ series : List ℚ,
      mean series = .error .EmptySeriesError ↔ series.length = 0) ∧
    (∀ series : List ℚ, series.length ≠ 0 →
      mean series = .ok (series.sum / series.length)) := by
  refine ⟨?_, ?_, ?_⟩
  · unfold mean
    norm_num [List.sum_cons, List.sum_nil]
  · intro series
    unfold mean
    constructor
    · intro h
      by_contra hne
      rw [if_neg hne] at h
      exact Except.noConfusion h
    · intro h
      rw [if_pos h]
  · intro series h
    unfold mean
    rw [if_neg h]

/-- Witness for C5: the two-element series has nonzero length and its mean is
its sum over its length. -/
theorem mean_spec_witness :
    List.length [(4 : ℚ), 6] ≠ 0 ∧
    mean [4, 6] =
      .ok (List.sum [(4 : ℚ), 6] / (List.length [(4 : ℚ), 6] : ℚ)) :=
  ⟨by decide, mean_spec.2.2 [4, 6] (by decide)⟩

/-- C6 fails on the code: the query string the active resolver
(`_location_query_om`) sends to the geocoding collaborator is
`"+".join(name.split(" "))` — the country is dropped entirely — not the
`", "` join of the non-empty name and country: for (New York, USA) the sent
`name` field is `"New+York"` while the join is `"New York, USA"`. -/
theorem geo_query_is_not_delim_join :
    (location_query_om_params ⟨"New York", "USA", none, none⟩ none).name =
      "New+York" ∧
    LocationData.loc_str ⟨"New York", "USA", none, none⟩ ", " =
      "New York, USA" ∧
    (location_query_om_params ⟨"New York", "USA", none, none⟩ none).name ≠
      LocationData.loc_str ⟨"New York", "USA", none, none⟩ ", " := by
  refine ⟨by decide, by decide, by decide⟩

/-- C6 amended: `loc_str` joins the non-empty `name` and `country` fields
with the delimiter, but the geocoding query actually sent by the active
resolver contains only the name with its spaces joined by `"+"`; it never
depends on `country`.  (The `", "`-joined `loc_str` feeds only display and
the superseded OSM variant, whose call is commented out.) -/
theorem geo_query_name_only :
    (∀ (loc : LocationData) (apikey : Option String),
      (location_query_om_params loc apikey).name =
        String.intercalate "+" (splitSpaces loc.name)) ∧
    (∀ (loc : LocationData) (c : String) (apikey : Option String),
      (location_query_om_params ⟨loc.name, c, loc.lat, loc.lon⟩ apikey).name =
        (location_query_om_params loc apikey).name) ∧
    (∀ loc : LocationData, loc.name ≠ "" → loc.country ≠ "" →
      loc.loc_str ", " = loc.name ++ ", " ++ loc.country) ∧
    (∀ loc : LocationData, loc.name ≠ "" → loc.country = "" →
      loc.loc_str ", " = loc.name) := by
  refine ⟨fun loc apikey => rfl, fun loc c apikey => rfl, ?_, ?_⟩
  · intro loc hn hc
    unfold LocationData.loc_str
    rw [if_pos hn, if_pos hc]
    simp [String.intercalate, String.intercalate.go]
  · intro loc hn hc
    unfold LocationData.loc_str
    rw [if_pos hn, if_neg (by simp [hc])]
    simp [String.intercalate, String.intercalate.go]

/-- Witness for C6 (amended): Copenhagen/Denmark has both fields non-empty
and `loc_str` joins them with `", "`. -/
theorem geo_query_name_only_witness :
    ("Copenhagen" ≠ "" ∧ "Denmark" ≠ "") ∧
    LocationData.loc_str ⟨"Copenhagen", "Denmark", none, none⟩ ", " =
      "Copenhagen" ++ ", " ++ "Denmark" :=
  ⟨⟨by decide, by decide⟩,
   geo_query_name_only.2.2.1 ⟨"Copenhagen", "Denmark", none, none⟩
     (by decide) (by decide)⟩

/-- C7 fails on the code: resolution applies no range (or finiteness)
validation to the parsed coordinates — a first candidate with latitude `"91"`
and longitude `"200"` resolves successfully to latitude 91 ∉ [-90, 90] and
longitude 200 ∉ [-180, 180]. -/
theorem get_coordinates_no_range_validation :
    get_coordinates "Nowhere" "XX" [⟨"91", "200"⟩] =
      .ok ⟨"Nowhere", "XX", some ((91 : ℕ) : ℚ), some ((200 : ℕ) : ℚ)⟩ ∧
    ¬(((91 : ℕ) : ℚ) ≤ 90) ∧ ¬(((200 : ℕ) : ℚ) ≤ 180) := by
  refine ⟨rfl, by norm_num, by norm_num⟩

/-- C7 amended: with a non-empty candidate list whose first candidate's
fields both parse, resolution returns exactly the parsed coordinates of that
first candidate, unvalidated: the latitude and longitude bounds of the claim
hold only when the collaborator's strings already denote in-range values. -/
theorem get_coordinates_returns_parsed_first_candidate :
    ∀ (city country : String) (item : GeoCandidate)
      (rest : List GeoCandidate) (la lo : ℚ),
      pyFloat item.latitude = some la → pyFloat item.longitude = some lo →
      get_coordinates city country (item :: rest) =
        .ok ⟨city, country, some la, some lo⟩ := by
  intro city country item rest la lo hla hlo
  have hstep : get_coordinates city country (item :: rest) =
      match pyFloat item.latitude, pyFloat item.longitude with
      | some a, some b => .ok ⟨city, country, some a, some b⟩
      | _, _ => .error .ParseError := rfl
  rw [hstep, hla, hlo]

/-- Witness for C7 (amended): both fields of the single candidate parse and
resolution returns them. -/
theorem get_coordinates_returns_parsed_first_candidate_witness :
    pyFloat "40" = some ((40 : ℕ) : ℚ) ∧ pyFloat "74" = some ((74 : ℕ) : ℚ) ∧
    get_coordinates "New York" "USA" [⟨"40", "74"⟩] =
      .ok ⟨"New York", "USA", some ((40 : ℕ) : ℚ), some ((74 : ℕ) : ℚ)⟩ :=
  ⟨rfl, rfl,
   get_coordinates_returns_parsed_first_candidate "New York" "USA"
     ⟨"40", "74"⟩ [] ((40 : ℕ) : ℚ) ((74 : ℕ) : ℚ) rfl rfl⟩

/-- C8: the location is created carrying only name and country — latitude and
longitude still `np.nan` — `get_coordinates` applies the resolver to it
exactly once and returns, and a successful resolution changes nothing but
`lat` and `lon`: the output record keeps the input's `name` and `country`
unchanged, with only the coordinate fields replaced. -/
theorem get_coordinates_frame :
    (∀ city country : String,
      ({ name := city, country := country, lat := none, lon := none } :
          LocationData).name = city ∧
      ({ name := city, country := country, lat := none, lon := none } :
          LocationData).country = country ∧
      ({ name := city, country := country, lat := none, lon := none } :
          LocationData).lat = none ∧
      ({ name := city, country := country, lat := none, lon := none } :
          LocationData).lon = none) ∧
    (∀ (city country : String) (results : List GeoCandidate),
      get_coordinates city country results =
        location_query_om ⟨city, country, none, none⟩ none results) ∧
    (∀ (loc loc' : LocationData) (apikey : Option String)
        (results : List GeoCandidate),
      location_query_om loc apikey results = .ok loc' →
      loc'.name = loc.name ∧ loc'.country = loc.country ∧
      loc' = { name := loc.name, country := loc.country,
               lat := loc'.lat, lon := loc'.lon }) := by
  refine ⟨fun city country => ⟨rfl, rfl, rfl, rfl⟩,
    fun city country results => rfl, ?_⟩
  intro loc loc' apikey results h
  cases results with
  | nil => exact Except.noConfusion h
  | cons item rest =>
    have hstep : location_query_om loc apikey (item :: rest) =
        match pyFloat item.latitude, pyFloat item.longitude with
        | some la, some lo =>
          .ok { name := loc.name, country := loc.country,
                lat := some la, lon := some lo }
        | _, _ => .error .ParseError := rfl
    rw [hstep] at h
    cases hla : pyFloat item.latitude with
    | none =>
      rw [hla] at h
      cases hlo : pyFloat item.longitude with
      | none => rw [hlo] at h; exact Except.noConfusion h
      | some lo => rw [hlo] at h; exact Except.noConfusion h
    | some la =>
      rw [hla] at h
      cases hlo : pyFloat item.longitude with
      | none => rw [hlo] at h; exact Except.noConfusion h
      | some lo =>
        rw [hlo] at h
        cases Except.ok.inj h
        exact ⟨rfl, rfl, rfl⟩

/-- Witness for C8: a successful concrete resolution keeps Sydney/Australia
unchanged and only fills the coordinates. -/
theorem get_coordinates_frame_witness :
    (⟨"Sydney", "Australia", some ((33 : ℕ) : ℚ), some ((151 : ℕ) : ℚ)⟩ :
        LocationData).name = "Sydney" ∧
    (⟨"Sydney", "Australia", some ((33 : ℕ) : ℚ), some ((151 : ℕ) : ℚ)⟩ :
        LocationData).country = "Australia" :=
  ⟨(get_coordinates_frame.2.2 ⟨"Sydney", "Australia", none, none⟩
      ⟨"Sydney", "Australia", some ((33 : ℕ) : ℚ), some ((151 : ℕ) : ℚ)⟩
      none [⟨"33", "151"⟩] rfl).1,
   (get_coordinates_frame.2.2 ⟨"Sydney", "Australia", none, none⟩
      ⟨"Sydney", "Australia", some ((33 : ℕ) : ℚ), some ((151 : ℕ) : ℚ)⟩
      none [⟨"33", "151"⟩] rfl).2.1⟩
